import Mathlib

/-!
Formal model of the image-normalisation and sweep-driver code of
`src/stylised_images.ipynb`.

The notebook's `resize_and_pad` (the spec's Letterbox Normalizer) and
`generate_images` (the spec's Sweep Driver) are embedded shallowly:

* Python float arithmetic on image dimensions is modelled by exact
  rational arithmetic (`ℚ`); at the scale factors involved the two agree
  on every concrete example considered here.
* PIL images are records of a width, a height and a pixel map; the
  LANCZOS resampling filter is an opaque parameter (a `ResampleKernel`),
  since no claim depends on the resampled colour values themselves.
  `Image.resize`, `Image.new` and `Image.paste` are modelled from
  Pillow's behaviour: `resize` first returns a pixel-identical copy
  when the requested size equals the current size (the Python-level
  same-size fast path), then rejects any requested dimension below 1
  with `ValueError` ("height and width must be > 0") in its C layer;
  `new` rejects only negative sizes; `paste` clips to the base image.
* Fallible Python code returns `Except PyError`; a Python `raise`
  is an `Except.error`.
* The diffusion pipeline is an opaque collaborator parameter of type
  `GenCall → Except PyError (List Image)`; `generate_images` records in
  its result the exact calls it made to the collaborator.
-/

/-- An RGB pixel value, one channel per component. -/
abbrev Color := Nat × Nat × Nat

/-- An in-memory raster image (PIL `Image`): `width × height` pixels,
`pixel x y` being the colour at column `x` of row `y`.  Values of the
pixel map outside the dimensions are irrelevant. -/
structure Image where
  width : Nat
  height : Nat
  pixel : Nat → Nat → Color

instance : Inhabited Image := ⟨⟨0, 0, fun _ _ => (0, 0, 0)⟩⟩

/-- The Python runtime errors this code can raise, together with the
spec's `InvalidDimension` error kind (`invalidDimension`), which the
code itself never raises: it has no validation of its own. -/
inductive PyError where
  | zeroDivisionError
  | valueError
  | indexError
  | assertionError
  | invalidDimension
  | runtimeError (msg : String)
deriving DecidableEq, Repr

/-- A resampling filter (the notebook uses `Image.LANCZOS`), treated as an
opaque parameter: `k src w h x y` is the colour at `(x, y)` of `src`
resampled to `w × h`. -/
abbrev ResampleKernel := Image → Nat → Nat → Nat → Nat → Color

/-- Python `int()` applied to the exact value of a float expression:
truncation toward zero. -/
def pyInt (q : ℚ) : Int := if 0 ≤ q then ⌊q⌋ else ⌈q⌉

/-- The notebook's `aspect_ratio = image.width / image.height`
(Python float division, modelled exactly; the caller checks `height ≠ 0`,
mirroring Python's `ZeroDivisionError`). -/
def imageAspect (image : Image) : ℚ := (image.width : ℚ) / (image.height : ℚ)

/-- Lines 134–140 of the notebook: the scaled dimensions
`(new_width, new_height)`.  If `aspect_ratio > 1` then
`new_width = target_size` and `new_height = int(target_size / aspect_ratio)`;
otherwise `new_height = target_size` and
`new_width = int(target_size * aspect_ratio)`. -/
def scaledDims (image : Image) (target_size : Int) : Int × Int :=
  if imageAspect image > 1 then
    (target_size, pyInt ((target_size : ℚ) / imageAspect image))
  else
    (pyInt ((target_size : ℚ) * imageAspect image), target_size)

/-- PIL `Image.resize(size, filter)`: first the Python-level fast path
returns a pixel-identical copy when the requested size equals the
current size; then the C layer rejects any requested dimension below 1
with `ValueError` ("height and width must be > 0"); otherwise it
produces an image of the requested size whose pixels come from the
resampling filter. -/
def pilResize (k : ResampleKernel) (image : Image) (w h : Int) :
    Except PyError Image :=
  if w = (image.width : Int) ∧ h = (image.height : Int) then .ok image
  else if w < 1 ∨ h < 1 then .error .valueError
  else .ok ⟨w.toNat, h.toNat, fun x y => k image w.toNat h.toNat x y⟩

/-- PIL `Image.new('RGB', (w, h), c)`: `ValueError` on a negative size,
otherwise a `w × h` image filled with the colour `c`. -/
def pilNew (w h : Int) (c : Color) : Except PyError Image :=
  if w < 0 ∨ h < 0 then .error .valueError
  else .ok ⟨w.toNat, h.toNat, fun _ _ => c⟩

/-- PIL `base.paste(src, (px, py))`: the pixels of `src` overwrite the
rectangle of `base` starting at `(px, py)`, clipped to `base`; every
other pixel of `base` is kept. -/
def pilPaste (base src : Image) (px py : Int) : Image :=
  { width := base.width
    height := base.height
    pixel := fun x y =>
      if px ≤ (x : Int) ∧ (x : Int) < px + src.width ∧
          py ≤ (y : Int) ∧ (y : Int) < py + src.height then
        src.pixel ((x : Int) - px).toNat ((y : Int) - py).toNat
      else base.pixel x y }

/-- Lines 148–149 of the notebook:
`paste_x = (target_size - new_width) // 2` and
`paste_y = (target_size - new_height) // 2` (Python floor division). -/
def pasteOffsets (target_size new_width new_height : Int) : Int × Int :=
  ((target_size - new_width).fdiv 2, (target_size - new_height).fdiv 2)

/-- The notebook's `resize_and_pad(image, target_size)` (the spec's
`normalize`): compute the aspect-preserving scaled dimensions, resize,
allocate a black `target_size × target_size` canvas, and paste the
resized image at the centred offsets. -/
def resize_and_pad (k : ResampleKernel) (image : Image) (target_size : Int) :
    Except PyError Image :=
  if image.height = 0 then .error .zeroDivisionError
  else
    let nd := scaledDims image target_size
    match pilResize k image nd.1 nd.2 with
    | .error e => .error e
    | .ok resized_image =>
      match pilNew target_size target_size (0, 0, 0) with
      | .error e => .error e
      | .ok new_image =>
        let off := pasteOffsets target_size nd.1 nd.2
        .ok (pilPaste new_image resized_image off.1 off.2)

/-- The image (if any) inside an `Except` result, defaulting to the
empty image. -/
def runOut (e : Except PyError Image) : Image := e.toOption.getD default

/-- Two images are pixel-identical: same dimensions and the same colour
at every in-range coordinate. -/
def Image.pixelEq (a b : Image) : Prop :=
  a.width = b.width ∧ a.height = b.height ∧
    ∀ x y, x < a.width → y < a.height → a.pixel x y = b.pixel x y

/-!  Allocation-explicit variant of `resize_and_pad`, used to state the
frame property.  A `Heap` is the list of live PIL image objects; the
function receives its input by handle (index), appends the image
allocated by `resize` and the canvas allocated by `new`, performs the
in-place `paste` on the canvas entry, and returns the handle of the
canvas.  The arithmetic is shared verbatim with `resize_and_pad`. -/

/-- The live PIL image objects, addressed by index. -/
abbrev Heap := List Image

/-- The heap form of `resize_and_pad`, with every allocation and
in-place mutation explicit: the input is read from `heap[idx]`,
`resize` and `new` each append a fresh image, and `paste` mutates only
the canvas entry.  Returns the heap as it stands when the call ends —
also when an exception is raised, since raising does not undo
allocations — together with either the handle of the returned canvas
or the raised error. -/
def resize_and_padHeap (k : ResampleKernel) (heap : Heap) (idx : Nat)
    (target_size : Int) : Heap × Except PyError Nat :=
  match heap[idx]? with
  | none => (heap, .error .indexError)
  | some image =>
    if image.height = 0 then (heap, .error .zeroDivisionError)
    else
      let nd := scaledDims image target_size
      match pilResize k image nd.1 nd.2 with
      | .error e => (heap, .error e)
      | .ok resized_image =>
        let heap1 := heap ++ [resized_image]
        match pilNew target_size target_size (0, 0, 0) with
        | .error e => (heap1, .error e)
        | .ok new_image =>
          let heap2 := heap1 ++ [new_image]
          let off := pasteOffsets target_size nd.1 nd.2
          let canvasIdx := heap1.length
          let heap3 :=
            heap2.set canvasIdx (pilPaste new_image resized_image off.1 off.2)
          (heap3, .ok canvasIdx)

/-!  The sweep driver `generate_images` (cell 12 of the notebook). -/

/-- The literal negative prompt passed to the pipeline on every call. -/
def negative_prompt_const : String :=
  "clear background, realistic photo, photography, ugly, fused, worst face, extra face, poorly drawn, duplicate, bad eyes, bad proportions"

/-- One invocation of the diffusion pipeline, with exactly the keyword
arguments the notebook passes. -/
structure GenCall where
  prompt : String
  image : Image
  num_inference_steps : Int
  num_images_per_prompt : Nat
  strength : ℚ
  guidance_scale : ℚ
  negative_prompt : String

/-- The external generation collaborator: the pipeline as an opaque
callable returning the `.images` list or raising. -/
abbrev Pipeline := GenCall → Except PyError (List Image)

/-- The grid produced by `make_image_grid`. -/
structure ImageGrid where
  rows : Nat
  cols : Nat
  cells : List Image

/-- The helper `diffusers.utils.make_image_grid(images, rows, cols)`:
asserts `len(images) == rows * cols` and arranges the images in
row-major order. -/
def make_image_grid (images : List Image) (rows cols : Nat) :
    Except PyError ImageGrid :=
  if images.length = rows * cols then .ok ⟨rows, cols, images⟩
  else .error .assertionError

/-- Python `images[i]` on a list: `IndexError` when out of range
(negative indices do not arise here). -/
def pyIndex (l : List Image) (i : Nat) : Except PyError Image :=
  match l[i]? with
  | some x => .ok x
  | none => .error .indexError

/-- The loop `for i in range(n): images_resized.append(resize_and_pad(images[i], size))`,
over an explicit list of indices, preserving Python's order of
evaluation and first-error propagation. -/
def resizeBatch (k : ResampleKernel) (images : List Image) (size : Int) :
    List Nat → Except PyError (List Image)
  | [] => .ok []
  | i :: rest =>
    match pyIndex images i with
    | .error e => .error e
    | .ok im =>
      match resize_and_pad k im size with
      | .error e => .error e
      | .ok r =>
        match resizeBatch k images size rest with
        | .error e => .error e
        | .ok rs => .ok (r :: rs)

/-- Everything observable about one `generate_images` run: the calls
made to the collaborator, the normalised copies, the grid handed to
`display` (when `show` was set), and the returned list. -/
structure GenRun where
  calls : List GenCall
  images_resized : List Image
  displayed : Option ImageGrid
  images : List Image

/-- The notebook's `generate_images(prompt, image, steps, n, strength,
guidance, size, show=True)`: one pipeline call with the fixed negative
prompt, then the resize loop, then (when `show`) the display grid with
`rows=1, cols=n`; returns the raw pipeline images. -/
def generate_images (pipe : Pipeline) (k : ResampleKernel) (prompt : String)
    (image : Image) (steps : Int) (n : Nat) (strength guidance : ℚ)
    (size : Int) (show_flag : Bool) : Except PyError GenRun :=
  let call : GenCall :=
    ⟨prompt, image, steps, n, strength, guidance, negative_prompt_const⟩
  match pipe call with
  | .error e => .error e
  | .ok images =>
    match resizeBatch k images size (List.range n) with
    | .error e => .error e
    | .ok images_resized =>
      match (if show_flag then (make_image_grid images_resized 1 n).map some
             else .ok none) with
      | .error e => .error e
      | .ok displayed => .ok ⟨[call], images_resized, displayed, images⟩

/-!  Concrete inputs used by the witnesses and counterexamples. -/

/-- A concrete resampling kernel. -/
def kDemo : ResampleKernel := fun _ _ _ _ _ => (1, 2, 3)

/-- A concrete `w × h` image with constant colour `(9, 9, 9)`. -/
def demoImage (w h : Nat) : Image := ⟨w, h, fun _ _ => (9, 9, 9)⟩

/-- A concrete collaborator returning two fixed images. -/
def pipeDemo : Pipeline := fun _ => .ok [demoImage 2 1, demoImage 1 2]

/-- A concrete collaborator that raises on invocation. -/
def pipeRaises : Pipeline := fun _ => .error (.runtimeError ("CUDA out of memory"))

/-- A concrete collaborator returning one valid image of extreme aspect
ratio (200 × 1). -/
def pipeExtreme : Pipeline := fun _ => .ok [demoImage 200 1]

/-!  Helper lemmas. -/

theorem pyInt_natCast_div (a b : ℕ) :
    pyInt ((a : ℚ) / (b : ℚ)) = ((a / b : ℕ) : ℤ) := by
  unfold pyInt
  rw [if_pos (by positivity)]
  rw [← Nat.floor_div_eq_div (α := ℚ) a b]
  rw [Int.natCast_floor_eq_floor (by positivity)]

theorem pyInt_intCast (n : ℤ) : pyInt (n : ℚ) = n := by simp [pyInt]

theorem imageAspect_gt_one_iff (img : Image) (hh : 0 < img.height) :
    imageAspect img > 1 ↔ img.height < img.width := by
  unfold imageAspect
  rw [gt_iff_lt, one_lt_div (by exact_mod_cast hh)]
  exact_mod_cast Iff.rfl

theorem scaledDims_eq (img : Image) (T : ℕ) (hh : 0 < img.height) :
    scaledDims img (T : ℤ) =
      if img.height < img.width then
        ((T : ℤ), ((T * img.height / img.width : ℕ) : ℤ))
      else
        (((T * img.width / img.height : ℕ) : ℤ), (T : ℤ)) := by
  unfold scaledDims
  rw [if_congr (imageAspect_gt_one_iff img hh) rfl rfl]
  by_cases hlt : img.height < img.width
  · rw [if_pos hlt, if_pos hlt]
    unfold imageAspect
    rw [div_div_eq_mul_div]
    have : ((T : ℤ) : ℚ) * (img.height : ℚ) = ((T * img.height : ℕ) : ℚ) := by
      push_cast; ring
    rw [this, pyInt_natCast_div]
  · rw [if_neg hlt, if_neg hlt]
    unfold imageAspect
    rw [mul_div_assoc']
    have : ((T : ℤ) : ℚ) * (img.width : ℚ) = ((T * img.width : ℕ) : ℚ) := by
      push_cast; ring
    rw [this, pyInt_natCast_div]

theorem scaledDims_natBounds (img : Image) (T : ℕ) (hw : 0 < img.width)
    (hh : 0 < img.height) :
    ∃ nw nh : ℕ, scaledDims img (T : ℤ) = ((nw : ℤ), (nh : ℤ)) ∧
      nw ≤ T ∧ nh ≤ T := by
  rw [scaledDims_eq img T hh]
  by_cases hlt : img.height < img.width
  · refine ⟨T, T * img.height / img.width, by rw [if_pos hlt], le_refl T, ?_⟩
    calc T * img.height / img.width
        ≤ T * img.width / img.width :=
          Nat.div_le_div_right (Nat.mul_le_mul_left T (Nat.le_of_lt hlt))
      _ = T := Nat.mul_div_cancel T hw
  · refine ⟨T * img.width / img.height, T, by rw [if_neg hlt], ?_, le_refl T⟩
    calc T * img.width / img.height
        ≤ T * img.height / img.height :=
          Nat.div_le_div_right (Nat.mul_le_mul_left T (Nat.le_of_not_lt hlt))
      _ = T := Nat.mul_div_cancel T hh

theorem scaledDims_pos (img : Image) (T : ℕ) (hw : 0 < img.width)
    (hh : 0 < img.height) (hT : 0 < T)
    (hfit1 : img.width ≤ T * img.height)
    (hfit2 : img.height ≤ T * img.width) :
    ∃ nw nh : ℕ, scaledDims img (T : ℤ) = ((nw : ℤ), (nh : ℤ)) ∧
      1 ≤ nw ∧ nw ≤ T ∧ 1 ≤ nh ∧ nh ≤ T := by
  rw [scaledDims_eq img T hh]
  by_cases hlt : img.height < img.width
  · refine ⟨T, T * img.height / img.width, by rw [if_pos hlt], hT,
      le_refl T, ?_, ?_⟩
    · rw [Nat.le_div_iff_mul_le hw, one_mul]
      exact hfit1
    · calc T * img.height / img.width
          ≤ T * img.width / img.width :=
            Nat.div_le_div_right (Nat.mul_le_mul_left T (Nat.le_of_lt hlt))
        _ = T := Nat.mul_div_cancel T hw
  · refine ⟨T * img.width / img.height, T, by rw [if_neg hlt], ?_, ?_,
      hT, le_refl T⟩
    · rw [Nat.le_div_iff_mul_le hh, one_mul]
      exact hfit2
    · calc T * img.width / img.height
          ≤ T * img.height / img.height :=
            Nat.div_le_div_right (Nat.mul_le_mul_left T (Nat.le_of_not_lt hlt))
        _ = T := Nat.mul_div_cancel T hh

theorem scaledDims_square (img : Image) (T : ℕ) (hh : 0 < img.height)
    (hsq : img.width = img.height) :
    scaledDims img (T : ℤ) = ((T : ℤ), (T : ℤ)) := by
  rw [scaledDims_eq img T hh, if_neg (by omega), hsq,
    Nat.mul_div_cancel T hh]

theorem scaledDims_zero (img : Image) : scaledDims img 0 = (0, 0) := by
  unfold scaledDims
  by_cases hc : imageAspect img > 1
  · rw [if_pos hc]
    norm_num [pyInt]
  · rw [if_neg hc]
    norm_num [pyInt]

theorem pasteOffsets_natCast (T nw nh : ℕ) (h1 : nw ≤ T) (h2 : nh ≤ T) :
    pasteOffsets (T : ℤ) (nw : ℤ) (nh : ℤ) =
      ((((T - nw) / 2 : ℕ) : ℤ), (((T - nh) / 2 : ℕ) : ℤ)) := by
  unfold pasteOffsets
  have e1 : (T : ℤ) - (nw : ℤ) = ((T - nw : ℕ) : ℤ) := by push_cast [h1]; ring
  have e2 : (T : ℤ) - (nh : ℤ) = ((T - nh : ℕ) : ℤ) := by push_cast [h2]; ring
  rw [e1, e2]
  rw [show ((2 : ℤ)) = ((2 : ℕ) : ℤ) from rfl]
  rw [← Int.ofNat_fdiv (T - nw) 2, ← Int.ofNat_fdiv (T - nh) 2]

theorem pilResize_natCast_ok (k : ResampleKernel) (img : Image) (w h : ℕ)
    (hw1 : 0 < w) (hh1 : 0 < h) :
    ∃ r, pilResize k img (w : ℤ) (h : ℤ) = .ok r ∧
      r.width = w ∧ r.height = h := by
  unfold pilResize
  by_cases hc : (w : ℤ) = (img.width : ℤ) ∧ (h : ℤ) = (img.height : ℤ)
  · rw [if_pos hc]
    exact ⟨img, rfl, by exact_mod_cast hc.1.symm, by exact_mod_cast hc.2.symm⟩
  · rw [if_neg hc, if_neg (by omega)]
    exact ⟨_, rfl, by simp, by simp⟩

theorem pilResize_same (k : ResampleKernel) (img : Image) :
    pilResize k img (img.width : ℤ) (img.height : ℤ) = .ok img := by
  unfold pilResize
  rw [if_pos ⟨rfl, rfl⟩]

theorem pilResize_err_iff (k : ResampleKernel) (img : Image) (w h : ℤ)
    (e : PyError) (he : pilResize k img w h = .error e) : e = .valueError := by
  unfold pilResize at he
  by_cases hc : w = (img.width : ℤ) ∧ h = (img.height : ℤ)
  · rw [if_pos hc] at he
    exact Except.noConfusion he
  · rw [if_neg hc] at he
    by_cases hz : w < 1 ∨ h < 1
    · rw [if_pos hz] at he
      injection he with he'
      exact he'.symm
    · rw [if_neg hz] at he
      exact Except.noConfusion he

theorem pilNew_err_iff (w h : ℤ) (c : Color) (e : PyError)
    (he : pilNew w h c = .error e) : e = .valueError := by
  unfold pilNew at he
  by_cases hz : w < 0 ∨ h < 0
  · rw [if_pos hz] at he
    injection he with he'
    exact he'.symm
  · rw [if_neg hz] at he
    exact Except.noConfusion he

theorem pilNew_natCast (w h : ℕ) (c : Color) :
    pilNew (w : ℤ) (h : ℤ) c = .ok ⟨w, h, fun _ _ => c⟩ := by
  unfold pilNew
  rw [if_neg (by omega)]
  simp

/-- The central unfolding of `resize_and_pad` on a valid input whose
scaled dimensions both stay at least 1 (the fit conditions
`width ≤ T·height` and `height ≤ T·width`): the scaled dimensions are
positive naturals bounded by the target, the resize succeeds, and the
result is the resized image pasted at the centred offsets on a black
`T × T` canvas. -/
theorem resize_and_pad_spec (k : ResampleKernel) (img : Image) (T : ℕ)
    (hw : 0 < img.width) (hh : 0 < img.height) (hT : 0 < T)
    (hfit1 : img.width ≤ T * img.height)
    (hfit2 : img.height ≤ T * img.width) :
    ∃ (nw nh : ℕ) (resized : Image),
      scaledDims img (T : ℤ) = ((nw : ℤ), (nh : ℤ)) ∧ nw ≤ T ∧ nh ≤ T ∧
      pilResize k img (nw : ℤ) (nh : ℤ) = .ok resized ∧
      resized.width = nw ∧ resized.height = nh ∧
      resize_and_pad k img (T : ℤ) =
        .ok (pilPaste ⟨T, T, fun _ _ => (0, 0, 0)⟩ resized
          (((T - nw) / 2 : ℕ) : ℤ) (((T - nh) / 2 : ℕ) : ℤ)) := by
  obtain ⟨nw, nh, hdims, hnw1, hnw, hnh1, hnh⟩ :=
    scaledDims_pos img T hw hh hT hfit1 hfit2
  obtain ⟨resized, hres, hrw, hrh⟩ := pilResize_natCast_ok k img nw nh hnw1 hnh1
  refine ⟨nw, nh, resized, hdims, hnw, hnh, hres, hrw, hrh, ?_⟩
  unfold resize_and_pad
  rw [if_neg (Nat.pos_iff_ne_zero.mp hh)]
  simp only [hdims, hres, pilNew_natCast T T (0, 0, 0),
    pasteOffsets_natCast T nw nh hnw hnh]

/-- Shared corollary: on a valid input whose scaled dimensions both
stay at least 1, the run succeeds and the output has the target
dimensions. -/
theorem resize_and_pad_dims (k : ResampleKernel) (img : Image) (T : ℕ)
    (hw : 0 < img.width) (hh : 0 < img.height) (hT : 0 < T)
    (hfit1 : img.width ≤ T * img.height)
    (hfit2 : img.height ≤ T * img.width) :
    ∃ out, resize_and_pad k img (T : ℤ) = .ok out ∧
      out.width = T ∧ out.height = T := by
  obtain ⟨nw, nh, resized, _, _, _, _, _, _, hrun⟩ :=
    resize_and_pad_spec k img T hw hh hT hfit1 hfit2
  exact ⟨_, hrun, rfl, rfl⟩

/-- Any error escaping `resize_and_pad` is the `ZeroDivisionError` of
the aspect-ratio division or a library `ValueError`; the spec's
`InvalidDimension` kind is never raised. -/
theorem resize_and_pad_err_cases (k : ResampleKernel) (img : Image)
    (T : ℤ) (e : PyError) (he : resize_and_pad k img T = .error e) :
    e = .zeroDivisionError ∨ e = .valueError := by
  unfold resize_and_pad at he
  by_cases h0 : img.height = 0
  · rw [if_pos h0] at he
    injection he with he'
    exact Or.inl he'.symm
  · rw [if_neg h0] at he
    simp only [] at he
    cases hres : pilResize k img (scaledDims img T).1 (scaledDims img T).2 with
    | error e1 =>
      rw [hres] at he
      injection he with he'
      exact Or.inr (he' ▸ pilResize_err_iff k img _ _ e1 hres)
    | ok resized =>
      rw [hres] at he
      cases hnew : pilNew T T (0, 0, 0) with
      | error e2 =>
        rw [hnew] at he
        injection he with he'
        exact Or.inr (he' ▸ pilNew_err_iff T T (0, 0, 0) e2 hnew)
      | ok canvas =>
        rw [hnew] at he
        exact Except.noConfusion he

/-- The 200 × 1 input at target 100: the truncated height is 0 and the
library resize raises `ValueError`. -/
theorem resize_and_pad_err_200x1 :
    resize_and_pad kDemo (demoImage 200 1) ((100 : ℕ) : ℤ) =
      .error .valueError := by
  have hdims : scaledDims (demoImage 200 1) ((100 : ℕ) : ℤ) =
      (((100 : ℕ) : ℤ), ((0 : ℕ) : ℤ)) := by
    rw [scaledDims_eq (demoImage 200 1) 100 (by decide), if_pos (by decide)]
    norm_num [demoImage]
  unfold resize_and_pad
  rw [if_neg (by decide)]
  simp only [hdims]
  unfold pilResize
  rw [if_neg (by decide), if_pos (Or.inr (by decide))]

/-- The 1 × 200 input at target 100: the truncated width is 0 and the
library resize raises `ValueError`. -/
theorem resize_and_pad_err_1x200 :
    resize_and_pad kDemo (demoImage 1 200) ((100 : ℕ) : ℤ) =
      .error .valueError := by
  have hdims : scaledDims (demoImage 1 200) ((100 : ℕ) : ℤ) =
      (((0 : ℕ) : ℤ), ((100 : ℕ) : ℤ)) := by
    rw [scaledDims_eq (demoImage 1 200) 100 (by decide), if_neg (by decide)]
    norm_num [demoImage]
  unfold resize_and_pad
  rw [if_neg (by decide)]
  simp only [hdims]
  unfold pilResize
  rw [if_neg (by decide), if_pos (Or.inl (by decide))]

/-!  The claims. -/

/-- C1 counterexample: the 200 × 1 input with target size 100 lies in
the claim's domain (positive dimensions, positive target), yet the code
computes `new_height = int(100/200.0) = 0` and the library resize
raises `ValueError`, so no `target_size × target_size` image is
returned. -/
theorem normalize_output_dims_counterexample :
    resize_and_pad kDemo (demoImage 200 1) ((100 : ℕ) : ℤ) =
      .error .valueError ∧
    ∀ out : Image,
      resize_and_pad kDemo (demoImage 200 1) ((100 : ℕ) : ℤ) ≠ .ok out := by
  refine ⟨resize_and_pad_err_200x1, fun out h => ?_⟩
  rw [resize_and_pad_err_200x1] at h
  exact Except.noConfusion h

/-- C1 amended: for every input with positive width and height and
positive target size such that neither scaled dimension truncates to
zero (`width ≤ target_size · height` and `height ≤ target_size · width`),
`resize_and_pad` returns an image whose width and height both equal the
target size; more extreme aspect ratios make the library resize raise
`ValueError` instead. -/
theorem normalize_output_dims (k : ResampleKernel) (img : Image) (T : ℕ)
    (hw : 0 < img.width) (hh : 0 < img.height) (hT : 0 < T)
    (hfit1 : img.width ≤ T * img.height)
    (hfit2 : img.height ≤ T * img.width) :
    ∃ out, resize_and_pad k img (T : ℤ) = .ok out ∧
      out.width = T ∧ out.height = T :=
  resize_and_pad_dims k img T hw hh hT hfit1 hfit2

/-- Witness for the amended C1 at a 2 × 1 image and target size 3. -/
theorem normalize_output_dims_witness :
    ∃ out, resize_and_pad kDemo (demoImage 2 1) ((3 : ℕ) : ℤ) = .ok out ∧
      out.width = 3 ∧ out.height = 3 :=
  normalize_output_dims kDemo (demoImage 2 1) 3 (by decide) (by decide)
    (by decide) (by decide) (by decide)

/-- C10: for every valid input and positive target the scaled dimensions
are naturals that never exceed the canvas, the paste offsets are
nonnegative, and the pasted region lies inside the canvas. -/
theorem scaled_dims_within_canvas (img : Image) (T : ℕ)
    (hw : 0 < img.width) (hh : 0 < img.height) (hT : 0 < T) :
    ∃ nw nh : ℕ, scaledDims img (T : ℤ) = ((nw : ℤ), (nh : ℤ)) ∧
      nw ≤ T ∧ nh ≤ T ∧
      0 ≤ (pasteOffsets (T : ℤ) (nw : ℤ) (nh : ℤ)).1 ∧
      0 ≤ (pasteOffsets (T : ℤ) (nw : ℤ) (nh : ℤ)).2 ∧
      (pasteOffsets (T : ℤ) (nw : ℤ) (nh : ℤ)).1 + nw ≤ T ∧
      (pasteOffsets (T : ℤ) (nw : ℤ) (nh : ℤ)).2 + nh ≤ T := by
  obtain ⟨nw, nh, hdims, hnw, hnh⟩ := scaledDims_natBounds img T hw hh
  refine ⟨nw, nh, hdims, hnw, hnh, ?_, ?_, ?_, ?_⟩ <;>
    rw [pasteOffsets_natCast T nw nh hnw hnh]
  · positivity
  · positivity
  · show (((T - nw) / 2 : ℕ) : ℤ) + (nw : ℤ) ≤ (T : ℤ)
    exact_mod_cast (by omega : (T - nw) / 2 + nw ≤ T)
  · show (((T - nh) / 2 : ℕ) : ℤ) + (nh : ℤ) ≤ (T : ℤ)
    exact_mod_cast (by omega : (T - nh) / 2 + nh ≤ T)

/-- Witness for C10 at a 2 × 1 image and target size 3. -/
theorem scaled_dims_within_canvas_witness :
    ∃ nw nh : ℕ,
      scaledDims (demoImage 2 1) ((3 : ℕ) : ℤ) = ((nw : ℤ), (nh : ℤ)) ∧
      nw ≤ 3 ∧ nh ≤ 3 ∧
      0 ≤ (pasteOffsets ((3 : ℕ) : ℤ) (nw : ℤ) (nh : ℤ)).1 ∧
      0 ≤ (pasteOffsets ((3 : ℕ) : ℤ) (nw : ℤ) (nh : ℤ)).2 ∧
      (pasteOffsets ((3 : ℕ) : ℤ) (nw : ℤ) (nh : ℤ)).1 + nw ≤ 3 ∧
      (pasteOffsets ((3 : ℕ) : ℤ) (nw : ℤ) (nh : ℤ)).2 + nh ≤ 3 :=
  scaled_dims_within_canvas (demoImage 2 1) 3 (by decide) (by decide)
    (by decide)

/-- C2 counterexample: on a 3 × 2 input with target size 100 the code
computes `new_height = 66` (Python `int()` truncates), whereas rounding
`target_size / aspect_ratio` as the claim states would give 67. -/
theorem scaled_dims_not_round :
    (scaledDims (demoImage 3 2) ((100 : ℕ) : ℤ)).2 = 66 ∧
    round (((100 : ℕ) : ℤ) / imageAspect (demoImage 3 2) : ℚ) = 67 ∧
    (scaledDims (demoImage 3 2) ((100 : ℕ) : ℤ)).2 ≠
      round (((100 : ℕ) : ℤ) / imageAspect (demoImage 3 2) : ℚ) := by
  have h1 : (scaledDims (demoImage 3 2) ((100 : ℕ) : ℤ)).2 = 66 := by
    rw [scaledDims_eq (demoImage 3 2) 100 (by decide)]
    rw [if_pos (by decide)]
    norm_num [demoImage]
  have h2 : round (((100 : ℕ) : ℤ) / imageAspect (demoImage 3 2) : ℚ) = 67 := by
    have ha : imageAspect (demoImage 3 2) = (3 : ℚ) / 2 := by
      norm_num [imageAspect, demoImage]
    rw [ha, round_eq]
    rw [Int.floor_eq_iff]
    constructor
    · norm_num
    · norm_num
  refine ⟨h1, h2, ?_⟩
  rw [h1, h2]
  decide

/-- C2 amended: the scaled dimensions are computed with Python `int()`
truncation, not rounding: when the image is wider than tall,
`new_width = target_size` and `new_height = ⌊target_size·height/width⌋`;
otherwise `new_height = target_size` and
`new_width = ⌊target_size·width/height⌋`; a square image takes the else
branch and gets `new_width = new_height = target_size`. -/
theorem scaled_dims_truncation (img : Image) (T : ℕ)
    (hw : 0 < img.width) (hh : 0 < img.height) :
    scaledDims img (T : ℤ) =
      (if img.height < img.width then
        ((T : ℤ), ((T * img.height / img.width : ℕ) : ℤ))
      else
        (((T * img.width / img.height : ℕ) : ℤ), (T : ℤ))) ∧
    (img.width = img.height →
      scaledDims img (T : ℤ) = ((T : ℤ), (T : ℤ))) :=
  ⟨scaledDims_eq img T hh, fun hsq => scaledDims_square img T hh hsq⟩

/-- Witness for the amended C2 at a 3 × 2 image and target size 100. -/
theorem scaled_dims_truncation_witness :
    scaledDims (demoImage 3 2) ((100 : ℕ) : ℤ) =
      (if (demoImage 3 2).height < (demoImage 3 2).width then
        ((100 : ℤ),
          ((100 * (demoImage 3 2).height / (demoImage 3 2).width : ℕ) : ℤ))
      else
        (((100 * (demoImage 3 2).width / (demoImage 3 2).height : ℕ) : ℤ),
          (100 : ℤ))) ∧
    ((demoImage 3 2).width = (demoImage 3 2).height →
      scaledDims (demoImage 3 2) ((100 : ℕ) : ℤ) = ((100 : ℤ), (100 : ℤ))) :=
  scaled_dims_truncation (demoImage 3 2) 100 (by decide) (by decide)

/-- C3 counterexample: `resize_and_pad` called with `target_size = 0`
on a valid 2 × 1 image does fail, but with the image library’s
`ValueError` raised at the resize call — not with any dedicated
`InvalidDimension` error, which the code never raises. -/
theorem normalize_missing_validation_counterexample :
    resize_and_pad kDemo (demoImage 2 1) 0 = .error .valueError ∧
    PyError.valueError ≠ PyError.invalidDimension := by
  constructor
  · unfold resize_and_pad
    rw [if_neg (by decide)]
    simp only [scaledDims_zero]
    unfold pilResize
    rw [if_neg (by decide), if_pos (Or.inl (by decide))]
  · decide

/-- C3 amended: the code has no dimension validation and never raises
an `InvalidDimension` error; such calls still fail, but with the
underlying errors: a non-positive `target_size` makes the computed
resize size non-positive and the library’s resize raises `ValueError`
(at the resize call, after the scaled dimensions were computed, though
still before any image is allocated); a zero-height input raises
`ZeroDivisionError` at the aspect-ratio division; a zero-width input
(with positive height and a target different from the height, which
would hit the library’s same-size fast path) raises `ValueError` at the
resize call. -/
theorem normalize_missing_validation (k : ResampleKernel) (img : Image)
    (hw : 0 < img.width) (hh : 0 < img.height) :
    (∀ T : ℤ, T ≤ 0 → resize_and_pad k img T = .error .valueError) ∧
    (∀ (img0 : Image) (T : ℤ), img0.height = 0 →
      resize_and_pad k img0 T = .error .zeroDivisionError) ∧
    (∀ (img0 : Image) (T : ℤ), img0.width = 0 → 0 < img0.height →
      T ≠ (img0.height : ℤ) →
      resize_and_pad k img0 T = .error .valueError) ∧
    (∀ (T : ℤ) (e : PyError), resize_and_pad k img T = .error e →
      e ≠ .invalidDimension) := by
  refine ⟨?_, ?_, ?_, ?_⟩
  · intro T hT
    unfold resize_and_pad
    rw [if_neg (by omega)]
    unfold pilResize
    by_cases hc : imageAspect img > 1
    · simp only [scaledDims, if_pos hc]
      rw [if_neg (by omega), if_pos (Or.inl (by omega))]
    · simp only [scaledDims, if_neg hc]
      rw [if_neg (by omega), if_pos (Or.inr (by omega))]
  · intro img0 T h0
    unfold resize_and_pad
    rw [if_pos h0]
  · intro img0 T h0w h0h hTne
    have ha : imageAspect img0 = 0 := by
      unfold imageAspect
      rw [h0w]
      norm_num
    have hz0 : pyInt (0 : ℚ) = 0 := by simp [pyInt]
    unfold resize_and_pad
    rw [if_neg (by omega)]
    unfold pilResize
    simp only [scaledDims, ha, if_neg (show ¬((0 : ℚ) > 1) by norm_num),
      mul_zero, hz0]
    rw [if_neg (by omega), if_pos (Or.inl (by omega))]
  · intro T e he hbad
    rcases resize_and_pad_err_cases k img T e he with h | h <;>
      simp [h] at hbad

/-- Witness for the amended C3 at a 2 × 1 image. -/
theorem normalize_missing_validation_witness :
    (∀ T : ℤ, T ≤ 0 →
      resize_and_pad kDemo (demoImage 2 1) T = .error .valueError) ∧
    (∀ (img0 : Image) (T : ℤ), img0.height = 0 →
      resize_and_pad kDemo img0 T = .error .zeroDivisionError) ∧
    (∀ (img0 : Image) (T : ℤ), img0.width = 0 → 0 < img0.height →
      T ≠ (img0.height : ℤ) →
      resize_and_pad kDemo img0 T = .error .valueError) ∧
    (∀ (T : ℤ) (e : PyError),
      resize_and_pad kDemo (demoImage 2 1) T = .error e →
      e ≠ .invalidDimension) :=
  normalize_missing_validation kDemo (demoImage 2 1) (by decide) (by decide)

/-- Pixel-level description of a successful run: with `px = (T−nw)/2`
and `py = (T−nh)/2` (natural floor division), the output pixel at any
coordinate is the resized pixel translated by `(px, py)` inside the
pasted region and the black fill colour everywhere else. -/
theorem resize_and_pad_pixels (k : ResampleKernel) (img : Image) (T : ℕ)
    (hw : 0 < img.width) (hh : 0 < img.height) (hT : 0 < T)
    (hfit1 : img.width ≤ T * img.height)
    (hfit2 : img.height ≤ T * img.width) :
    ∃ (nw nh : ℕ) (resized out : Image),
      scaledDims img (T : ℤ) = ((nw : ℤ), (nh : ℤ)) ∧ nw ≤ T ∧ nh ≤ T ∧
      pilResize k img (nw : ℤ) (nh : ℤ) = .ok resized ∧
      resize_and_pad k img (T : ℤ) = .ok out ∧
      out.width = T ∧ out.height = T ∧
      ∀ x y : ℕ,
        out.pixel x y =
          if (T - nw) / 2 ≤ x ∧ x < (T - nw) / 2 + nw ∧
              (T - nh) / 2 ≤ y ∧ y < (T - nh) / 2 + nh then
            resized.pixel (x - (T - nw) / 2) (y - (T - nh) / 2)
          else (0, 0, 0) := by
  obtain ⟨nw, nh, resized, hdims, hnw, hnh, hres, hrw, hrh, hrun⟩ :=
    resize_and_pad_spec k img T hw hh hT hfit1 hfit2
  refine ⟨nw, nh, resized, _, hdims, hnw, hnh, hres, hrun, rfl, rfl, ?_⟩
  intro x y
  simp only [pilPaste, hrw, hrh]
  by_cases hxy : (T - nw) / 2 ≤ x ∧ x < (T - nw) / 2 + nw ∧
      (T - nh) / 2 ≤ y ∧ y < (T - nh) / 2 + nh
  · rw [if_pos (by omega), if_pos hxy]
    have e1 : ((x : ℤ) - (((T - nw) / 2 : ℕ) : ℤ)).toNat = x - (T - nw) / 2 := by
      omega
    have e2 : ((y : ℤ) - (((T - nh) / 2 : ℕ) : ℤ)).toNat = y - (T - nh) / 2 := by
      omega
    rw [e1, e2]
  · rw [if_neg (by omega), if_neg hxy]

/-- C5 counterexample: the 1 × 200 input with target size 100 lies in
the claim's domain, but the truncated width is 0 and the library resize
raises `ValueError`: nothing is pasted and no canvas is returned. -/
theorem normalize_centering_counterexample :
    resize_and_pad kDemo (demoImage 1 200) ((100 : ℕ) : ℤ) =
      .error .valueError ∧
    ∀ out : Image,
      resize_and_pad kDemo (demoImage 1 200) ((100 : ℕ) : ℤ) ≠ .ok out := by
  refine ⟨resize_and_pad_err_1x200, fun out h => ?_⟩
  rw [resize_and_pad_err_1x200] at h
  exact Except.noConfusion h

/-- C5 amended: for every valid input whose scaled dimensions do not
truncate to zero (`width ≤ target_size · height` and
`height ≤ target_size · width`), the scaled content is placed at
`paste_x = (target_size − new_width) // 2` and
`paste_y = (target_size − new_height) // 2` (integer floor division, so
the one-pixel asymmetry falls on the top/left edge), the pasted region
is fully overwritten with the resized content, and every canvas pixel
outside the pasted region is the default black fill colour; more
extreme aspect ratios make the library resize raise `ValueError`
instead. -/
theorem normalize_centering (k : ResampleKernel) (img : Image) (T : ℕ)
    (hw : 0 < img.width) (hh : 0 < img.height) (hT : 0 < T)
    (hfit1 : img.width ≤ T * img.height)
    (hfit2 : img.height ≤ T * img.width) :
    ∃ (nw nh : ℕ) (resized out : Image),
      scaledDims img (T : ℤ) = ((nw : ℤ), (nh : ℤ)) ∧
      pilResize k img (nw : ℤ) (nh : ℤ) = .ok resized ∧
      resize_and_pad k img (T : ℤ) = .ok out ∧
      pasteOffsets (T : ℤ) (nw : ℤ) (nh : ℤ) =
        (((T : ℤ) - (nw : ℤ)).fdiv 2, ((T : ℤ) - (nh : ℤ)).fdiv 2) ∧
      pasteOffsets (T : ℤ) (nw : ℤ) (nh : ℤ) =
        ((((T - nw) / 2 : ℕ) : ℤ), (((T - nh) / 2 : ℕ) : ℤ)) ∧
      (∀ x y : ℕ,
        out.pixel x y =
          if (T - nw) / 2 ≤ x ∧ x < (T - nw) / 2 + nw ∧
              (T - nh) / 2 ≤ y ∧ y < (T - nh) / 2 + nh then
            resized.pixel (x - (T - nw) / 2) (y - (T - nh) / 2)
          else (0, 0, 0)) := by
  obtain ⟨nw, nh, resized, out, hdims, hnw, hnh, hres, hrun, _, _, hpix⟩ :=
    resize_and_pad_pixels k img T hw hh hT hfit1 hfit2
  exact ⟨nw, nh, resized, out, hdims, hres, hrun, rfl,
    pasteOffsets_natCast T nw nh hnw hnh, hpix⟩

/-- Witness for the amended C5 at a 2 × 1 image and target size 3. -/
theorem normalize_centering_witness :
    ∃ (nw nh : ℕ) (resized out : Image),
      scaledDims (demoImage 2 1) ((3 : ℕ) : ℤ) = ((nw : ℤ), (nh : ℤ)) ∧
      pilResize kDemo (demoImage 2 1) (nw : ℤ) (nh : ℤ) = .ok resized ∧
      resize_and_pad kDemo (demoImage 2 1) ((3 : ℕ) : ℤ) = .ok out ∧
      pasteOffsets ((3 : ℕ) : ℤ) (nw : ℤ) (nh : ℤ) =
        ((((3 : ℕ) : ℤ) - (nw : ℤ)).fdiv 2,
          (((3 : ℕ) : ℤ) - (nh : ℤ)).fdiv 2) ∧
      pasteOffsets ((3 : ℕ) : ℤ) (nw : ℤ) (nh : ℤ) =
        ((((3 - nw) / 2 : ℕ) : ℤ), (((3 - nh) / 2 : ℕ) : ℤ)) ∧
      (∀ x y : ℕ,
        out.pixel x y =
          if (3 - nw) / 2 ≤ x ∧ x < (3 - nw) / 2 + nw ∧
              (3 - nh) / 2 ≤ y ∧ y < (3 - nh) / 2 + nh then
            resized.pixel (x - (3 - nw) / 2) (y - (3 - nh) / 2)
          else (0, 0, 0)) :=
  normalize_centering kDemo (demoImage 2 1) 3 (by decide) (by decide)
    (by decide) (by decide) (by decide)

/-- C4: a 200 × 100 input at target size 100 gets
`new_width = 100, new_height = 50, paste_x = 0, paste_y = 25` and its
output rows 0–24 and 75–99 are entirely fill-colour pixels; a 100 × 200
input at target size 100 gets
`new_width = 50, new_height = 100, paste_x = 25, paste_y = 0`. -/
theorem normalize_examples (k : ResampleKernel) (imgL imgP : Image)
    (hLw : imgL.width = 200) (hLh : imgL.height = 100)
    (hPw : imgP.width = 100) (hPh : imgP.height = 200) :
    scaledDims imgL ((100 : ℕ) : ℤ) = (((100 : ℕ) : ℤ), ((50 : ℕ) : ℤ)) ∧
    pasteOffsets ((100 : ℕ) : ℤ) ((100 : ℕ) : ℤ) ((50 : ℕ) : ℤ) = (0, 25) ∧
    scaledDims imgP ((100 : ℕ) : ℤ) = (((50 : ℕ) : ℤ), ((100 : ℕ) : ℤ)) ∧
    pasteOffsets ((100 : ℕ) : ℤ) ((50 : ℕ) : ℤ) ((100 : ℕ) : ℤ) = (25, 0) ∧
    (∃ out, resize_and_pad k imgL ((100 : ℕ) : ℤ) = .ok out ∧
      ∀ x y : ℕ, x < 100 → (y < 25 ∨ (75 ≤ y ∧ y < 100)) →
        out.pixel x y = (0, 0, 0)) := by
  have hL : scaledDims imgL ((100 : ℕ) : ℤ) =
      (((100 : ℕ) : ℤ), ((50 : ℕ) : ℤ)) := by
    rw [scaledDims_eq imgL 100 (by omega), if_pos (by omega), hLw, hLh]
  have hP : scaledDims imgP ((100 : ℕ) : ℤ) =
      (((50 : ℕ) : ℤ), ((100 : ℕ) : ℤ)) := by
    rw [scaledDims_eq imgP 100 (by omega), if_neg (by omega), hPw, hPh]
  refine ⟨hL, by decide, hP, by decide, ?_⟩
  obtain ⟨nw, nh, resized, out, hdims, hnw, hnh, hres, hrun, _, _, hpix⟩ :=
    resize_and_pad_pixels k imgL 100 (by omega) (by omega) (by omega)
      (by omega) (by omega)
  rw [hL] at hdims
  have enw : nw = 100 := by
    have h1 : ((100 : ℕ) : ℤ) = (nw : ℤ) := congrArg Prod.fst hdims
    exact_mod_cast h1.symm
  have enh : nh = 50 := by
    have h2 : ((50 : ℕ) : ℤ) = (nh : ℤ) := congrArg Prod.snd hdims
    exact_mod_cast h2.symm
  subst enw enh
  refine ⟨out, hrun, ?_⟩
  intro x y hx hy
  rw [hpix x y, if_neg (by omega)]

/-- Witness for C4 at the concrete 200 × 100 and 100 × 200 images. -/
theorem normalize_examples_witness :
    scaledDims (demoImage 200 100) ((100 : ℕ) : ℤ) =
      (((100 : ℕ) : ℤ), ((50 : ℕ) : ℤ)) ∧
    pasteOffsets ((100 : ℕ) : ℤ) ((100 : ℕ) : ℤ) ((50 : ℕ) : ℤ) = (0, 25) ∧
    scaledDims (demoImage 100 200) ((100 : ℕ) : ℤ) =
      (((50 : ℕ) : ℤ), ((100 : ℕ) : ℤ)) ∧
    pasteOffsets ((100 : ℕ) : ℤ) ((50 : ℕ) : ℤ) ((100 : ℕ) : ℤ) = (25, 0) ∧
    (∃ out, resize_and_pad kDemo (demoImage 200 100) ((100 : ℕ) : ℤ) =
        .ok out ∧
      ∀ x y : ℕ, x < 100 → (y < 25 ∨ (75 ≤ y ∧ y < 100)) →
        out.pixel x y = (0, 0, 0)) :=
  normalize_examples kDemo (demoImage 200 100) (demoImage 100 200) rfl rfl
    rfl rfl

/-- Whatever the outcome, the heap after `resize_and_padHeap` is the
original heap with zero, one or two freshly allocated images appended:
nothing pre-existing is removed or overwritten. -/
theorem resize_and_padHeap_extends (k : ResampleKernel) (heap : Heap)
    (idx : Nat) (T0 : Int) :
    ∃ tail : List Image,
      (resize_and_padHeap k heap idx T0).1 = heap ++ tail := by
  unfold resize_and_padHeap
  cases hx : heap[idx]? with
  | none =>
    exact ⟨[], (List.append_nil heap).symm⟩
  | some image =>
    by_cases h0 : image.height = 0
    · simp only [if_pos h0]
      exact ⟨[], (List.append_nil heap).symm⟩
    · simp only [if_neg h0]
      cases hres : pilResize k image (scaledDims image T0).1
          (scaledDims image T0).2 with
      | error e =>
        simp only [hres]
        exact ⟨[], (List.append_nil heap).symm⟩
      | ok resized =>
        simp only [hres]
        cases hnew : pilNew T0 T0 (0, 0, 0) with
        | error e =>
          simp only [hnew]
          exact ⟨[resized], rfl⟩
        | ok canvas =>
          simp only [hnew]
          refine ⟨[resized,
            pilPaste canvas resized
              (pasteOffsets T0 (scaledDims image T0).1
                (scaledDims image T0).2).1
              (pasteOffsets T0 (scaledDims image T0).1
                (scaledDims image T0).2).2], ?_⟩
          rw [List.append_assoc,
            List.set_append_right _ _ (by simp)]
          simp

/-- C6 counterexample: at the valid 300 × 1 input with target size 100
the run raises `ValueError` inside resize, and no output image is
allocated — the heap comes back exactly as it was — so the call does
not perform the allocation of a returned output image that the claim
describes. -/
theorem normalize_preserves_input_counterexample :
    resize_and_padHeap kDemo [demoImage 300 1] 0 ((100 : ℕ) : ℤ) =
      ([demoImage 300 1], .error .valueError) := by
  have hdims : scaledDims (demoImage 300 1) ((100 : ℕ) : ℤ) =
      (((100 : ℕ) : ℤ), ((0 : ℕ) : ℤ)) := by
    rw [scaledDims_eq (demoImage 300 1) 100 (by decide), if_pos (by decide)]
    norm_num [demoImage]
  have hres : pilResize kDemo (demoImage 300 1) ((100 : ℕ) : ℤ)
      ((0 : ℕ) : ℤ) = .error .valueError := by
    unfold pilResize
    rw [if_neg (by decide), if_pos (Or.inr (by decide))]
  unfold resize_and_padHeap
  rw [show ([demoImage 300 1])[0]? = some (demoImage 300 1) from rfl]
  simp only [if_neg (show ¬(demoImage 300 1).height = 0 by decide),
    hdims, hres]

/-- C6 amended: a run never mutates the input image nor any other
pre-existing image on the heap, whatever the outcome (raising
included); when moreover neither scaled dimension truncates to zero,
the run succeeds and its only effect is appending the two freshly
allocated images (the resize intermediate and the returned canvas),
the returned handle being that fresh canvas. -/
theorem normalize_preserves_input (k : ResampleKernel) (heap : Heap)
    (idx : Nat) (img : Image) (T : ℕ) (hidx : heap[idx]? = some img)
    (hw : 0 < img.width) (hh : 0 < img.height) (hT : 0 < T)
    (hfit1 : img.width ≤ T * img.height)
    (hfit2 : img.height ≤ T * img.width) :
    (∀ (T0 : ℤ) (j : ℕ), j < heap.length →
      (resize_and_padHeap k heap idx T0).1[j]? = heap[j]?) ∧
    (∀ T0 : ℤ, (resize_and_padHeap k heap idx T0).1[idx]? = some img) ∧
    ∃ (heap0 : Heap) (ridx : ℕ),
      resize_and_padHeap k heap idx (T : ℤ) = (heap0, .ok ridx) ∧
      heap0.length = heap.length + 2 ∧ ridx = heap.length + 1 := by
  have hlen : idx < heap.length := by
    by_contra hge
    rw [List.getElem?_eq_none (by omega)] at hidx
    exact Option.noConfusion hidx
  have hframe : ∀ (T0 : ℤ) (j : ℕ), j < heap.length →
      (resize_and_padHeap k heap idx T0).1[j]? = heap[j]? := by
    intro T0 j hj
    obtain ⟨tail, htail⟩ := resize_and_padHeap_extends k heap idx T0
    rw [htail]
    exact List.getElem?_append_left hj
  refine ⟨hframe, fun T0 => ?_, ?_⟩
  · rw [hframe T0 idx hlen]
    exact hidx
  · obtain ⟨nw, nh, hdims, hnw1, hnw, hnh1, hnh⟩ :=
      scaledDims_pos img T hw hh hT hfit1 hfit2
    obtain ⟨resized, hres, hrw, hrh⟩ :=
      pilResize_natCast_ok k img nw nh hnw1 hnh1
    have hrun : resize_and_padHeap k heap idx (T : ℤ) =
        (((heap ++ [resized]) ++
            [(⟨T, T, fun _ _ => (0, 0, 0)⟩ : Image)]).set
              ((heap ++ [resized]).length)
            (pilPaste ⟨T, T, fun _ _ => (0, 0, 0)⟩ resized
              (((T - nw) / 2 : ℕ) : ℤ) (((T - nh) / 2 : ℕ) : ℤ)),
          .ok ((heap ++ [resized]).length)) := by
      unfold resize_and_padHeap
      rw [hidx]
      simp only [if_neg (show ¬img.height = 0 by omega), hdims, hres,
        pilNew_natCast T T (0, 0, 0), pasteOffsets_natCast T nw nh hnw hnh]
    exact ⟨_, _, hrun, by simp, by simp⟩

/-- Witness for the amended C6 on a one-image heap and target size 3. -/
theorem normalize_preserves_input_witness :
    (∀ (T0 : ℤ) (j : ℕ), j < [demoImage 2 1].length →
      (resize_and_padHeap kDemo [demoImage 2 1] 0 T0).1[j]? =
        [demoImage 2 1][j]?) ∧
    (∀ T0 : ℤ,
      (resize_and_padHeap kDemo [demoImage 2 1] 0 T0).1[0]? =
        some (demoImage 2 1)) ∧
    ∃ (heap0 : Heap) (ridx : ℕ),
      resize_and_padHeap kDemo [demoImage 2 1] 0 ((3 : ℕ) : ℤ) =
        (heap0, .ok ridx) ∧
      heap0.length = [demoImage 2 1].length + 2 ∧
      ridx = [demoImage 2 1].length + 1 :=
  normalize_preserves_input kDemo [demoImage 2 1] 0 (demoImage 2 1) 3 rfl
    (by decide) (by decide) (by decide) (by decide) (by decide)

/-- C7: on an input already of size `target_size × target_size`,
`resize_and_pad` succeeds and returns an image pixel-identical to the
input (Pillow's same-size resize fast path returns a copy, and the
paste at offset `(0, 0)` covers the whole canvas). -/
theorem normalize_idempotent (k : ResampleKernel) (img : Image) (T : ℕ)
    (hT : 0 < T) (hw : img.width = T) (hh : img.height = T) :
    ∃ out, resize_and_pad k img (T : ℤ) = .ok out ∧ out.pixelEq img := by
  subst hw
  have hsq : img.width = img.height := by omega
  have hh0 : 0 < img.height := by omega
  have hdims : scaledDims img (img.width : ℤ) =
      ((img.width : ℤ), (img.width : ℤ)) :=
    scaledDims_square img img.width hh0 hsq
  have hres : pilResize k img (img.width : ℤ) (img.width : ℤ) = .ok img := by
    have h := pilResize_same k img
    rw [← hsq] at h
    exact h
  have hrun : resize_and_pad k img (img.width : ℤ) =
      .ok (pilPaste ⟨img.width, img.width, fun _ _ => (0, 0, 0)⟩ img
        (((img.width - img.width) / 2 : ℕ) : ℤ)
        (((img.width - img.width) / 2 : ℕ) : ℤ)) := by
    unfold resize_and_pad
    rw [if_neg (by omega)]
    simp only [hdims, hres, pilNew_natCast img.width img.width (0, 0, 0),
      pasteOffsets_natCast img.width img.width img.width (le_refl _)
        (le_refl _)]
  refine ⟨_, hrun, rfl, hsq, ?_⟩
  intro x y hx hy
  simp only [pilPaste] at hx hy ⊢
  rw [if_pos (by omega)]
  have e1 : ((x : ℤ) - (((img.width - img.width) / 2 : ℕ) : ℤ)).toNat = x := by
    omega
  have e2 : ((y : ℤ) - (((img.width - img.width) / 2 : ℕ) : ℤ)).toNat = y := by
    omega
  rw [e1, e2]

/-- Witness for C7 at a 3 × 3 image and target size 3. -/
theorem normalize_idempotent_witness :
    ∃ out, resize_and_pad kDemo (demoImage 3 3) ((3 : ℕ) : ℤ) = .ok out ∧
      out.pixelEq (demoImage 3 3) :=
  normalize_idempotent kDemo (demoImage 3 3) 3 (by decide) rfl rfl

/-- The resize loop succeeds on in-range indices of valid images whose
scaled dimensions do not truncate to zero, producing one `size × size`
image per index. -/
theorem resizeBatch_ok (k : ResampleKernel) (images : List Image)
    (size : ℕ) (hsize : 0 < size)
    (him : ∀ im ∈ images, 0 < im.width ∧ 0 < im.height ∧
      im.width ≤ size * im.height ∧ im.height ≤ size * im.width) :
    ∀ l : List Nat, (∀ i ∈ l, i < images.length) →
      ∃ rs, resizeBatch k images ((size : ℕ) : ℤ) l = .ok rs ∧
        rs.length = l.length ∧
        ∀ r ∈ rs, r.width = size ∧ r.height = size := by
  intro l
  induction l with
  | nil => exact fun _ => ⟨[], rfl, rfl, by simp⟩
  | cons i rest ih =>
    intro hl
    have hi : i < images.length := hl i (by simp)
    have him_i := him images[i] (List.getElem_mem hi)
    obtain ⟨out, hout, how, hoh⟩ :=
      resize_and_pad_dims k images[i] size him_i.1 him_i.2.1 hsize
        him_i.2.2.1 him_i.2.2.2
    obtain ⟨rs, hrs, hrslen, hall⟩ := ih (fun j hj => hl j (by simp [hj]))
    refine ⟨out :: rs, ?_, by simp [hrslen], ?_⟩
    · simp only [resizeBatch, pyIndex, List.getElem?_eq_getElem hi, hout,
        hrs]
    · intro r hr
      rcases List.mem_cons.mp hr with h | h
      · subst h
        exact ⟨how, hoh⟩
      · exact hall r h

/-- C8 counterexample: a stub collaborator returning exactly `n = 1`
image of positive dimensions (200 × 1) at display size 100 makes the
normalization loop raise `ValueError` inside resize, so
`generate_images` raises instead of returning the one raw image. -/
theorem run_sweep_contract_counterexample :
    generate_images pipeExtreme kDemo ("p") (demoImage 2 1) 30 1 (1 / 2)
      10 ((100 : ℕ) : ℤ) true = .error .valueError ∧
    ∀ r : GenRun,
      generate_images pipeExtreme kDemo ("p") (demoImage 2 1) 30 1 (1 / 2)
        10 ((100 : ℕ) : ℤ) true ≠ .ok r := by
  have hrb : resizeBatch kDemo [demoImage 200 1] ((100 : ℕ) : ℤ)
      (List.range 1) = .error .valueError := by
    rw [show List.range 1 = [0] from rfl]
    simp only [resizeBatch, pyIndex,
      show ([demoImage 200 1])[0]? = some (demoImage 200 1) from rfl,
      resize_and_pad_err_200x1]
  have h : generate_images pipeExtreme kDemo ("p") (demoImage 2 1) 30 1
      (1 / 2) 10 ((100 : ℕ) : ℤ) true = .error .valueError := by
    unfold generate_images
    simp only [show pipeExtreme ⟨("p"), demoImage 2 1, 30, 1, 1 / 2, 10,
      negative_prompt_const⟩ = .ok [demoImage 200 1] from rfl, hrb]
  refine ⟨h, fun r hr => ?_⟩
  rw [h] at hr
  exact Except.noConfusion hr

/-- C8 amended: with `image_count = n`, a positive display size, and a
collaborator returning exactly `n` valid images none of which is so
extreme that a scaled dimension truncates to zero
(`width ≤ size · height` and `height ≤ size · width`),
`generate_images` makes exactly one collaborator call, that call
carries the fixed boilerplate negative prompt, each of the `n` outputs
is normalised to `size × size` (for the display grid), and the returned
list is exactly the `n` raw collaborator outputs in the collaborator's
order; a zero size or a more extreme output makes the loop raise the
library's `ValueError` instead. -/
theorem run_sweep_contract (pipe : Pipeline) (k : ResampleKernel)
    (prompt : String) (image : Image) (steps : Int) (n : Nat)
    (strength guidance : ℚ) (size : ℕ) (show_flag : Bool)
    (imgs : List Image)
    (hpipe : pipe ⟨prompt, image, steps, n, strength, guidance,
      negative_prompt_const⟩ = .ok imgs)
    (hlen : imgs.length = n)
    (hsize : 0 < size)
    (him : ∀ im ∈ imgs, 0 < im.width ∧ 0 < im.height ∧
      im.width ≤ size * im.height ∧ im.height ≤ size * im.width) :
    ∃ r : GenRun,
      generate_images pipe k prompt image steps n strength guidance
        ((size : ℕ) : ℤ) show_flag = .ok r ∧
      r.calls = [⟨prompt, image, steps, n, strength, guidance,
        negative_prompt_const⟩] ∧
      r.images = imgs ∧
      r.images.length = n ∧
      r.images_resized.length = n ∧
      ∀ im ∈ r.images_resized, im.width = size ∧ im.height = size := by
  obtain ⟨rs, hrs, hrslen, hall⟩ :=
    resizeBatch_ok k imgs size hsize him (List.range n)
      (fun i hi => by simp only [List.mem_range] at hi; omega)
  have hrslen2 : rs.length = n := by
    rw [hrslen, List.length_range]
  refine ⟨⟨[⟨prompt, image, steps, n, strength, guidance,
      negative_prompt_const⟩], rs,
      if show_flag then some ⟨1, n, rs⟩ else none, imgs⟩,
    ?_, rfl, rfl, hlen, hrslen2, hall⟩
  unfold generate_images
  simp only [hpipe, hrs]
  cases show_flag with
  | true => simp [make_image_grid, hrslen2, Except.map]
  | false => simp

/-- Witness for the amended C8: a stub collaborator returning two valid
well-proportioned images, `n = 2`, display size 4. -/
theorem run_sweep_contract_witness :
    ∃ r : GenRun,
      generate_images pipeDemo kDemo ("studio ghibli, anime, adorable")
        (demoImage 2 1) 30 2 (1 / 2) 10 ((4 : ℕ) : ℤ) true = .ok r ∧
      r.calls = [⟨"studio ghibli, anime, adorable", demoImage 2 1, 30, 2,
        1 / 2, 10, negative_prompt_const⟩] ∧
      r.images = [demoImage 2 1, demoImage 1 2] ∧
      r.images.length = 2 ∧
      r.images_resized.length = 2 ∧
      ∀ im ∈ r.images_resized, im.width = 4 ∧ im.height = 4 :=
  run_sweep_contract pipeDemo kDemo ("studio ghibli, anime, adorable")
    (demoImage 2 1) 30 2 (1 / 2) 10 4 true
    [demoImage 2 1, demoImage 1 2] rfl rfl (by decide) (by decide)

/-- C9: when the collaborator raises, `generate_images` propagates that
very error unchanged and produces no result (in particular no partial
image list). -/
theorem run_sweep_propagates (pipe : Pipeline) (k : ResampleKernel)
    (prompt : String) (image : Image) (steps : Int) (n : Nat)
    (strength guidance : ℚ) (size : Int) (show_flag : Bool) (e : PyError)
    (hpipe : pipe ⟨prompt, image, steps, n, strength, guidance,
      negative_prompt_const⟩ = .error e) :
    generate_images pipe k prompt image steps n strength guidance size
      show_flag = .error e ∧
    ∀ r : GenRun, generate_images pipe k prompt image steps n strength
      guidance size show_flag ≠ .ok r := by
  have h : generate_images pipe k prompt image steps n strength guidance
      size show_flag = .error e := by
    unfold generate_images
    simp only [hpipe]
  refine ⟨h, fun r hr => ?_⟩
  rw [h] at hr
  exact Except.noConfusion hr

/-- Witness for C9: a stub collaborator that raises an out-of-memory
runtime error. -/
theorem run_sweep_propagates_witness :
    generate_images pipeRaises kDemo ("p") (demoImage 2 1) 30 2 (1 / 2) 10
      1024 true = .error (.runtimeError ("CUDA out of memory")) ∧
    ∀ r : GenRun, generate_images pipeRaises kDemo ("p") (demoImage 2 1) 30 2
      (1 / 2) 10 1024 true ≠ .ok r :=
  run_sweep_propagates pipeRaises kDemo ("p") (demoImage 2 1) 30 2 (1 / 2)
    10 1024 true (.runtimeError ("CUDA out of memory")) rfl

